import Mathlib

/-!
Shallow embedding of the g2 probing cycle (src/TinyG2/cycle_probing.cpp) and
the planner buffer-pool data model (src/TinyG2/planner.h).

Machine floats are modelled as rationals.  The collaborators that live outside
the given sources (gpio, spindle, planner execution, kinematics, encoder) are
modelled as an explicit environment plus an effect trace: every probing state
function returns the status it would return in C together with the updated
canonical-machine state, the updated probing singleton, and the ordered list of
external calls it issued.
-/

namespace G2

/-- Number of axes (X, Y, Z, A, B, C), as used throughout the source. -/
abbrev AXES : Nat := 6

abbrev Axis := Fin AXES

def AXIS_X : Axis := 0
def AXIS_Y : Axis := 1
def AXIS_Z : Axis := 2
def AXIS_A : Axis := 3
def AXIS_B : Axis := 4
def AXIS_C : Axis := 5

/-- An axis vector of machine floats (modelled as rationals). -/
abbrev Vec := Axis → ℚ

/-- Per-axis participation flags. -/
abbrev Flags := Axis → Bool

/-- cycle_probing.cpp line 43. -/
def MINIMUM_PROBE_TRAVEL : ℚ := 254 / 1000

/-- The status codes returned by the probing-cycle functions. -/
inductive stat_t where
  | STAT_OK
  | STAT_EAGAIN
  | STAT_NOOP
  | STAT_GCODE_FEEDRATE_NOT_SPECIFIED
  | STAT_GCODE_AXIS_IS_MISSING
  | STAT_PROBE_CYCLE_FAILED
  deriving DecidableEq

/-- cmProbeState: PROBE_FAILED / PROBE_SUCCEEDED / PROBE_WAITING. -/
inductive cmProbeState where
  | PROBE_FAILED
  | PROBE_SUCCEEDED
  | PROBE_WAITING
  deriving DecidableEq

/-- Modelled from the spec: the cycle states of the canonical machine
(canonical_machine.h is not under src/); only the probe cycle is
distinguished, every other cycle state is collapsed into two symbols. -/
inductive cmCycleState where
  | CYCLE_OFF
  | CYCLE_PROBE
  | CYCLE_OTHER
  deriving DecidableEq

/-- Modelled from the spec: machine states of the canonical machine
(canonical_machine.h is not under src/). -/
inductive cmMachineState where
  | MACHINE_CYCLE
  | MACHINE_PROGRAM_STOP
  | MACHINE_OTHER
  deriving DecidableEq

/-- G90 / G91 distance mode. -/
inductive cmDistanceMode where
  | ABSOLUTE_MODE
  | INCREMENTAL_MODE
  deriving DecidableEq

/-- Motion modes touched by the probing cycle. -/
inductive cmMotionMode where
  | MOTION_MODE_STRAIGHT_FEED
  | MOTION_MODE_CANCEL_MOTION_MODE
  | MOTION_MODE_OTHER
  deriving DecidableEq

/-- Coordinate systems are numbered; probing switches to ABSOLUTE_COORDS. -/
def ABSOLUTE_COORDS : Nat := 0

/-- gpio_read_input value for an open (untriggered) switch. -/
def INPUT_INACTIVE : Int := 0

/-- gpio_read_input value for a closed (triggered) switch. -/
def INPUT_ACTIVE : Int := 1

/-- The slice of the canonical-machine singleton `cm` that the probing cycle
reads and writes.  `position` is the absolute machine position of the active
model (cm_get_absolute_position); `jerk_max` is the per-axis working jerk
(cm_get_axis_jerk / cm_set_axis_jerk / direct writes in the restore path) and
`jerk_high` the per-axis high-speed jerk used while probing. -/
structure CmState where
  feed_rate : ℚ
  probe_state : cmProbeState
  probe_results : Vec
  machine_state : cmMachineState
  cycle_state : cmCycleState
  coord_system : Nat
  distance_mode : cmDistanceMode
  jerk_max : Vec
  jerk_high : Vec
  position : Vec
  motion_mode : cmMotionMode

/-- The probing dispatch states (the function pointer pb.func, represented as
an enum per the design notes). -/
inductive PbFunc where
  | PB_INIT
  | PB_START
  | PB_BACKOFF
  | PB_FINISH
  | PB_FINALIZE_EXIT
  deriving DecidableEq

/-- The probing singleton pb (struct pbProbingSingleton). -/
structure PbState where
  func : PbFunc
  probe_input : Nat
  saved_distance_mode : cmDistanceMode
  saved_coord_system : Nat
  saved_jerk : Vec
  target : Vec
  flags : Flags

/-- External calls issued by the probing cycle, in program order. -/
inductive Effect where
  | straight_feed (target : Vec) (flags : Flags)
  | queue_flush
  | set_probing_mode (input : Nat) (enabled : Bool)
  | spindle_pause
  | spindle_resume
  | error_message (axis : Int)
  | probe_report
  | canned_cycle_end

/-- The environment a probing callback runs against: the gpio input reads,
the interrupt-latched encoder snapshot, and the runtime-busy flag. -/
structure Env where
  read : Nat → Int
  snapshot : Vec
  busy : Bool

/-- Result of one probing state function: C return status, updated cm and pb,
and the trace of external calls. -/
structure PbStep where
  status : stat_t
  cm : CmState
  pb : PbState
  effects : List Effect

/-- Modelled from the spec: get_axis_vector_length (util.cpp, not under src/)
is the Euclidean distance between two axis vectors.  We embed its square; the
comparison against MINIMUM_PROBE_TRAVEL is done on squares, which is
equivalent since the square root is monotone on nonnegative reals. -/
def axis_vector_length_sq (a b : Vec) : ℚ :=
  ∑ i : Axis, (a i - b i) ^ 2

/-- Modelled from the spec: fp_ZERO (util.h, not under src/) tests a float
for zero. -/
def fp_ZERO (f : ℚ) : Bool := f = 0

/-- Modelled from the spec: cm_straight_feed queues a feed move; by the time
the runtime is idle again (the next probing callback) the absolute position
equals the move target on the participating axes and is unchanged elsewhere. -/
def straight_feed_position (pos target : Vec) (flags : Flags) : Vec :=
  fun a => if flags a then target a else pos a

/-- cm_straight_probe, cycle_probing.cpp lines 110-131.  Rejections happen
before any state is touched; acceptance records the target and flags in pb,
clears the probe results, marks the probe waiting and binds the init state. -/
def cm_straight_probe (cm : CmState) (pb : PbState) (target : Vec)
    (flags : Flags) : stat_t × CmState × PbState :=
  if fp_ZERO cm.feed_rate then
    (.STAT_GCODE_FEEDRATE_NOT_SPECIFIED, cm, pb)
  else if !flags AXIS_X && !flags AXIS_Y && !flags AXIS_Z then
    (.STAT_GCODE_AXIS_IS_MISSING, cm, pb)
  else
    let pb := { pb with target := target, flags := flags }
    let cm := { cm with probe_results := fun _ => 0,
                        probe_state := .PROBE_WAITING }
    let pb := { pb with func := .PB_INIT }
    (.STAT_OK, cm, pb)

/-- _probe_restore_settings, cycle_probing.cpp lines 284-307: flush the
queue, disarm the probe input, restore the per-axis jerk, the coordinate
system and the distance mode, resume the spindle, cancel the motion mode and
end the canned cycle (the last is modelled from the spec: end the cycle,
machine returns to program stop). -/
def probe_restore_settings (cm : CmState) (pb : PbState) :
    CmState × List Effect :=
  let cm := { cm with jerk_max := pb.saved_jerk,
                      coord_system := pb.saved_coord_system,
                      distance_mode := pb.saved_distance_mode,
                      motion_mode := .MOTION_MODE_CANCEL_MOTION_MODE,
                      cycle_state := .CYCLE_OFF,
                      machine_state := .MACHINE_PROGRAM_STOP }
  (cm, [.queue_flush, .set_probing_mode pb.probe_input false,
        .spindle_resume, .canned_cycle_end])

/-- _probing_finalize_exit, cycle_probing.cpp lines 309-313. -/
def probing_finalize_exit (cm : CmState) (pb : PbState) : PbStep :=
  let r := probe_restore_settings cm pb
  ⟨.STAT_OK, r.1, pb, r.2⟩

/-- _probing_error_exit, cycle_probing.cpp lines 315-332: emit the diagnostic
message for the offending axis (-2 encodes an invalid destination), restore
the settings, and return STAT_PROBE_CYCLE_FAILED.  It does not touch pb. -/
def probing_error_exit (axis : Int) (cm : CmState) (pb : PbState) :
    stat_t × CmState × List Effect :=
  let r := probe_restore_settings cm pb
  (.STAT_PROBE_CYCLE_FAILED, r.1, .error_message axis :: r.2)

/-- The A/B/C-axis loop of _probing_init, cycle_probing.cpp lines 183-189:
for each rotational axis whose participation flag is set, _probing_error_exit
is called — and, as in the source, its return value is discarded and the loop
continues. -/
def abc_error_exits (cm : CmState) (pb : PbState) : CmState × List Effect :=
  [AXIS_A, AXIS_B, AXIS_C].foldl
    (fun acc a =>
      if pb.flags a then
        let r := probing_error_exit (a.val : Int) acc.1 pb
        (r.2.1, acc.2 ++ r.2.2)
      else acc)
    (cm, [])

/-- _probing_init, cycle_probing.cpp lines 151-198, embedded exactly as
written: the two error checks call _probing_error_exit but discard its return
status and fall through (the source has no return statement there), so
initialization always continues to arm probe input 5, pause the spindle and
bind _probing_start, returning STAT_EAGAIN via _set_pb_func. -/
def probing_init (cm : CmState) (pb : PbState) : PbStep :=
  let cm := { cm with probe_state := .PROBE_FAILED,
                      machine_state := .MACHINE_CYCLE,
                      cycle_state := .CYCLE_PROBE }
  let pb := { pb with saved_coord_system := cm.coord_system,
                      saved_distance_mode := cm.distance_mode }
  let cm := { cm with distance_mode := .ABSOLUTE_MODE,
                      coord_system := ABSOLUTE_COORDS }
  let pb := { pb with saved_jerk := cm.jerk_max }
  let start_position := cm.position
  let cm := { cm with jerk_max := cm.jerk_high }
  let r1 :=
    if axis_vector_length_sq start_position pb.target
        < MINIMUM_PROBE_TRAVEL ^ 2 then
      let r := probing_error_exit (-2) cm pb
      (r.2.1, r.2.2)
    else (cm, ([] : List Effect))
  let cm := r1.1
  let r2 := abc_error_exits cm pb
  let cm := r2.1
  let pb := { pb with probe_input := 5 }
  let pb := { pb with func := .PB_START }
  ⟨.STAT_EAGAIN, cm, pb,
    r1.2 ++ r2.2 ++ [.set_probing_mode 5 true, .spindle_pause]⟩

/-- _probing_start, cycle_probing.cpp lines 204-218: read the probe input;
if it is open, issue the probe move and go to backoff; if it is already
closed, mark success and skip straight to finish. -/
def probing_start (env : Env) (cm : CmState) (pb : PbState) : PbStep :=
  let probe := env.read pb.probe_input
  if probe = INPUT_INACTIVE then
    let cm := { cm with
      position := straight_feed_position cm.position pb.target pb.flags }
    ⟨.STAT_EAGAIN, cm, { pb with func := .PB_BACKOFF },
      [.straight_feed pb.target pb.flags]⟩
  else
    ⟨.STAT_EAGAIN, { cm with probe_state := .PROBE_SUCCEEDED },
      { pb with func := .PB_FINISH }, []⟩

/-- _probing_backoff, cycle_probing.cpp lines 226-247: re-read the input
after the probe move; on no contact mark failure; on contact mark success,
convert the interrupt-latched encoder snapshot through forward kinematics
(the kinematics collaborator kf), flush the queue and issue the corrective
feed to the contact position with the probe's participation flags. -/
def probing_backoff (kf : Vec → Vec) (env : Env) (cm : CmState)
    (pb : PbState) : PbStep :=
  let probe := env.read pb.probe_input
  if probe = INPUT_INACTIVE then
    ⟨.STAT_EAGAIN, { cm with probe_state := .PROBE_FAILED },
      { pb with func := .PB_FINISH }, []⟩
  else
    let contact := kf env.snapshot
    let cm := { cm with probe_state := .PROBE_SUCCEEDED }
    let cm := { cm with
      position := straight_feed_position cm.position contact pb.flags }
    ⟨.STAT_EAGAIN, cm, { pb with func := .PB_FINISH },
      [.queue_flush, .straight_feed contact pb.flags]⟩

/-- _probing_finish, cycle_probing.cpp lines 253-276: read the input once
more and set probe_state from the comparison (probe == true), record the
absolute position of every axis into probe_results, emit the probe report
and bind the finalize state. -/
def probing_finish (env : Env) (cm : CmState) (pb : PbState) : PbStep :=
  let probe := env.read pb.probe_input
  let cm := { cm with
    probe_state := if probe = 1 then .PROBE_SUCCEEDED else .PROBE_FAILED }
  let cm := { cm with probe_results := cm.position }
  ⟨.STAT_EAGAIN, cm, { pb with func := .PB_FINALIZE_EXIT }, [.probe_report]⟩

/-- Dispatch through the probing state function pointer pb.func. -/
def pb_dispatch (kf : Vec → Vec) (env : Env) (cm : CmState)
    (pb : PbState) : PbStep :=
  match pb.func with
  | .PB_INIT => probing_init cm pb
  | .PB_START => probing_start env cm pb
  | .PB_BACKOFF => probing_backoff kf env cm pb
  | .PB_FINISH => probing_finish env cm pb
  | .PB_FINALIZE_EXIT => probing_finalize_exit cm pb

/-- cm_probing_cycle_callback, cycle_probing.cpp lines 133-140: no-op unless
in a probe cycle or waiting for one; return STAT_EAGAIN without touching
anything while the runtime is busy; otherwise run the one current state
function. -/
def cm_probing_cycle_callback (kf : Vec → Vec) (env : Env) (cm : CmState)
    (pb : PbState) : PbStep :=
  if cm.cycle_state ≠ .CYCLE_PROBE ∧ cm.probe_state ≠ .PROBE_WAITING then
    ⟨.STAT_NOOP, cm, pb, []⟩
  else if env.busy then
    ⟨.STAT_EAGAIN, cm, pb, []⟩
  else
    pb_dispatch kf env cm pb

/-- Iterate the probing callback over a list of per-invocation environments,
accumulating the effect trace; the status is that of the last invocation. -/
def probing_run (kf : Vec → Vec) (envs : List Env) (cm : CmState)
    (pb : PbState) : PbStep :=
  envs.foldl
    (fun r e =>
      let r2 := cm_probing_cycle_callback kf e r.cm r.pb
      { r2 with effects := r.effects ++ r2.effects })
    ⟨.STAT_NOOP, cm, pb, []⟩

/-! ## Planner buffer pool data model (src/TinyG2/planner.h) -/

/-- planner.h line 85. -/
def PLANNER_BUFFER_POOL_SIZE : Nat := 28

/-- planner.h line 86. -/
def PLANNER_BUFFER_HEADROOM : Nat := 4

/-- mpBufferState (planner.h): buffer lifecycle. -/
inductive mpBufferState where
  | MP_BUFFER_EMPTY
  | MP_BUFFER_PLANNING
  | MP_BUFFER_QUEUED
  | MP_BUFFER_RUNNING
  deriving DecidableEq

/-- moveSection (planner.h lines 64-68). -/
inductive moveSection where
  | SECTION_HEAD
  | SECTION_BODY
  | SECTION_TAIL
  deriving DecidableEq

/-- One planner buffer (mpBuf_t, planner.h lines 135-179), with the ring
links represented as arena indices per the design notes, and the embedded
gcode-model snapshot reduced to the fields the probing claims rely on. -/
structure mpBuf_t where
  pv : Fin PLANNER_BUFFER_POOL_SIZE
  nx : Fin PLANNER_BUFFER_POOL_SIZE
  buffer_state : mpBufferState
  replannable : Bool
  locked : Bool
  unit : Vec
  unit_flags : Flags
  length : ℚ
  head_length : ℚ
  body_length : ℚ
  tail_length : ℚ
  entry_velocity : ℚ
  cruise_velocity : ℚ
  exit_velocity : ℚ
  entry_vmax : ℚ
  cruise_vmax : ℚ
  exit_vmax : ℚ
  jerk : ℚ

/-- The planner buffer pool (mpBufferPool_t, planner.h lines 181-199): the
fixed storage array bf has exactly PLANNER_BUFFER_POOL_SIZE slots. -/
structure mpBufferPool_t where
  buffers_available : Nat
  w : Fin PLANNER_BUFFER_POOL_SIZE
  q : Fin PLANNER_BUFFER_POOL_SIZE
  r : Fin PLANNER_BUFFER_POOL_SIZE
  bf : Fin PLANNER_BUFFER_POOL_SIZE → mpBuf_t

/-! ## Concrete fixtures used by the witnesses -/

/-- The all-zero axis vector. -/
def zeroVec : Vec := fun _ => 0

/-- A canonical-machine state in a probe cycle, with nonzero feed rate. -/
def cmBase : CmState :=
  { feed_rate := 100
    probe_state := .PROBE_FAILED
    probe_results := zeroVec
    machine_state := .MACHINE_CYCLE
    cycle_state := .CYCLE_PROBE
    coord_system := 1
    distance_mode := .INCREMENTAL_MODE
    jerk_max := fun _ => 1000
    jerk_high := fun _ => 2000
    position := zeroVec
    motion_mode := .MOTION_MODE_STRAIGHT_FEED }

/-- A probing singleton bound to the start state, probing 10mm along X. -/
def pbStart : PbState :=
  { func := .PB_START
    probe_input := 5
    saved_distance_mode := .INCREMENTAL_MODE
    saved_coord_system := 1
    saved_jerk := fun _ => 1000
    target := fun a => if a = AXIS_X then 10 else 0
    flags := fun a => a == AXIS_X }

/-- Environment: probe switch open, runtime idle. -/
def envOpen : Env := { read := fun _ => 0, snapshot := zeroVec, busy := false }

/-- Environment: probe switch closed, runtime idle, snapshot at 3 steps. -/
def envClosed : Env := { read := fun _ => 1, snapshot := fun _ => 3, busy := false }

/-- Environment: runtime busy. -/
def envBusy : Env := { read := fun _ => 0, snapshot := zeroVec, busy := true }

/-- Identity forward kinematics, used as a concrete kinematics collaborator. -/
def kfId : Vec → Vec := fun v => v

/-! ## Claims -/

/-- C10: the planner buffer pool has a fixed capacity of exactly 28 slots
(PLANNER_BUFFER_POOL_SIZE), which satisfies the recommended minimum of 12 and
the stated limit of 255. -/
theorem C10_planner_buffer_pool_size :
    PLANNER_BUFFER_POOL_SIZE = 28 ∧ 12 ≤ PLANNER_BUFFER_POOL_SIZE ∧
      PLANNER_BUFFER_POOL_SIZE ≤ 255 := by
  decide

/-- C2: both probing cleanup paths — probing_finalize_exit and
probing_error_exit — unconditionally restore the saved per-axis jerk, the
saved coordinate system and the saved distance mode, disarm the probe input
and resume the spindle. -/
theorem C2_cleanup_restores_on_both_exit_paths (cm : CmState) (pb : PbState)
    (axis : Int) :
    ((probing_finalize_exit cm pb).cm.jerk_max = pb.saved_jerk ∧
     (probing_finalize_exit cm pb).cm.coord_system = pb.saved_coord_system ∧
     (probing_finalize_exit cm pb).cm.distance_mode = pb.saved_distance_mode ∧
     Effect.set_probing_mode pb.probe_input false ∈
       (probing_finalize_exit cm pb).effects ∧
     Effect.spindle_resume ∈ (probing_finalize_exit cm pb).effects) ∧
    ((probing_error_exit axis cm pb).2.1.jerk_max = pb.saved_jerk ∧
     (probing_error_exit axis cm pb).2.1.coord_system = pb.saved_coord_system ∧
     (probing_error_exit axis cm pb).2.1.distance_mode =
       pb.saved_distance_mode ∧
     Effect.set_probing_mode pb.probe_input false ∈
       (probing_error_exit axis cm pb).2.2 ∧
     Effect.spindle_resume ∈ (probing_error_exit axis cm pb).2.2) := by
  simp [probing_finalize_exit, probing_error_exit, probe_restore_settings,
    List.mem_cons]

/-- C8: the probe result recorded by the finish state comes from a fresh read
of the probe input compared against 1 (true), overriding whatever probe state
the start or backoff state left in cm. -/
theorem C8_finish_result_is_fresh_read (env : Env) (cm : CmState)
    (pb : PbState) :
    (probing_finish env cm pb).cm.probe_state =
      (if env.read pb.probe_input = 1 then .PROBE_SUCCEEDED
       else .PROBE_FAILED) := by
  simp [probing_finish]

/-- C7: during an active or pending probe cycle, a callback invocation with
the runtime busy returns STAT_EAGAIN and changes nothing; and in general a
callback either leaves the state untouched (no-op or busy) or runs exactly
the one current state function. -/
theorem C7_callback_gated_on_runtime_busy (kf : Vec → Vec) (env : Env)
    (cm : CmState) (pb : PbState) :
    (env.busy = true →
      (cm.cycle_state = .CYCLE_PROBE ∨ cm.probe_state = .PROBE_WAITING) →
      cm_probing_cycle_callback kf env cm pb =
        ⟨.STAT_EAGAIN, cm, pb, []⟩) ∧
    (cm_probing_cycle_callback kf env cm pb = ⟨.STAT_NOOP, cm, pb, []⟩ ∨
     cm_probing_cycle_callback kf env cm pb = ⟨.STAT_EAGAIN, cm, pb, []⟩ ∨
     cm_probing_cycle_callback kf env cm pb = pb_dispatch kf env cm pb) := by
  constructor
  · intro hbusy hcycle
    rcases hcycle with h | h <;>
      simp [cm_probing_cycle_callback, h, hbusy]
  · by_cases h1 : cm.cycle_state ≠ .CYCLE_PROBE ∧
      cm.probe_state ≠ .PROBE_WAITING
    · left
      simp [cm_probing_cycle_callback, h1]
    · by_cases h2 : env.busy = true
      · right; left
        simp [cm_probing_cycle_callback, h1, h2]
      · right; right
        simp [cm_probing_cycle_callback, h1, h2]

/-- Witness for C7 at a concrete busy invocation. -/
theorem C7_witness :
    cm_probing_cycle_callback kfId envBusy cmBase pbStart =
      ⟨.STAT_EAGAIN, cmBase, pbStart, []⟩ := by
  exact (C7_callback_gated_on_runtime_busy kfId envBusy cmBase pbStart).1 rfl
    (Or.inl rfl)

/-- A canonical-machine state with zero feed rate. -/
def cmZeroFeed : CmState := { cmBase with feed_rate := 0 }

/-- Participation flags with no axis selected. -/
def flagsNone : Flags := fun _ => false

/-- Participation flags selecting only the rotational axis A. -/
def flagsAOnly : Flags := fun a => a == AXIS_A

/-- C3 counterexample: with a nonzero feed rate and the A-axis flag set (so
not every axis participation flag is false), cm_straight_probe still rejects
with the missing-axis error, because the source checks only the X, Y and Z
flags — refuting the claim that every such input is accepted with STAT_OK. -/
theorem C3_counterexample_abc_only_flags_rejected :
    cmBase.feed_rate ≠ 0 ∧ flagsAOnly AXIS_A = true ∧
    (cm_straight_probe cmBase pbStart zeroVec flagsAOnly).1 =
      .STAT_GCODE_AXIS_IS_MISSING ∧
    (cm_straight_probe cmBase pbStart zeroVec flagsAOnly).1 ≠
      .STAT_OK := by
  refine ⟨by norm_num [cmBase], rfl, rfl, by decide⟩

/-- C3 amended: cm_straight_probe rejects synchronously, without mutating cm
or pb, exactly when the feed rate is zero (feed-rate error, checked first) or
when none of the X, Y, Z participation flags is set (missing-axis error,
regardless of the A/B/C flags); every other input is accepted with STAT_OK. -/
theorem C3_straight_probe_synchronous_rejection (cm : CmState)
    (pb : PbState) (target : Vec) (flags : Flags) :
    (cm.feed_rate = 0 →
      cm_straight_probe cm pb target flags =
        (.STAT_GCODE_FEEDRATE_NOT_SPECIFIED, cm, pb)) ∧
    (cm.feed_rate ≠ 0 → flags AXIS_X = false → flags AXIS_Y = false →
      flags AXIS_Z = false →
      cm_straight_probe cm pb target flags =
        (.STAT_GCODE_AXIS_IS_MISSING, cm, pb)) ∧
    (cm.feed_rate ≠ 0 →
      (flags AXIS_X = true ∨ flags AXIS_Y = true ∨ flags AXIS_Z = true) →
      (cm_straight_probe cm pb target flags).1 = .STAT_OK) := by
  refine ⟨?_, ?_, ?_⟩
  · intro h
    simp [cm_straight_probe, fp_ZERO, h]
  · intro h hx hy hz
    simp [cm_straight_probe, fp_ZERO, h, hx, hy, hz]
  · intro h hxyz
    rcases hxyz with hx | hy | hz
    · simp [cm_straight_probe, fp_ZERO, h, hx]
    · simp [cm_straight_probe, fp_ZERO, h, hy]
    · simp [cm_straight_probe, fp_ZERO, h, hz]

/-- Witness for the amended C3 at concrete inputs: a zero-feed call, a call
with no flags at all, and an accepted X-axis probe. -/
theorem C3_witness :
    cm_straight_probe cmZeroFeed pbStart zeroVec flagsNone =
      (.STAT_GCODE_FEEDRATE_NOT_SPECIFIED, cmZeroFeed, pbStart) ∧
    cm_straight_probe cmBase pbStart zeroVec flagsNone =
      (.STAT_GCODE_AXIS_IS_MISSING, cmBase, pbStart) ∧
    (cm_straight_probe cmBase pbStart pbStart.target pbStart.flags).1 =
      .STAT_OK := by
  refine ⟨(C3_straight_probe_synchronous_rejection cmZeroFeed pbStart zeroVec
      flagsNone).1 rfl,
    (C3_straight_probe_synchronous_rejection cmBase pbStart zeroVec
      flagsNone).2.1 (by norm_num [cmBase]) rfl rfl rfl,
    (C3_straight_probe_synchronous_rejection cmBase pbStart pbStart.target
      pbStart.flags).2.2 (by norm_num [cmBase]) (Or.inl rfl)⟩

/-- A probing singleton bound to the init state whose target equals the
current machine position of cmBase (travel 0 < 0.254), with only the X axis
participating; probe_input still holds its power-on value 0. -/
def pbInitShort : PbState :=
  { func := .PB_INIT
    probe_input := 0
    saved_distance_mode := .ABSOLUTE_MODE
    saved_coord_system := 0
    saved_jerk := zeroVec
    target := zeroVec
    flags := fun a => a == AXIS_X }

/-- C1 (code evaluation at the failing input): with the probe target within
the minimum travel distance, _probing_init calls _probing_error_exit(-2) —
the diagnostic message and the state restoration do happen — but the source
discards the returned STAT_PROBE_CYCLE_FAILED and falls through: the cycle
arms probe input 5, pauses the spindle, binds _probing_start and returns
STAT_EAGAIN, and the next callback issues the probe move. -/
theorem C1_probing_init_falls_through_error_exit :
    (probing_init cmBase pbInitShort).status = .STAT_EAGAIN ∧
    (probing_init cmBase pbInitShort).status ≠ .STAT_PROBE_CYCLE_FAILED ∧
    (probing_init cmBase pbInitShort).pb.func = .PB_START ∧
    (probing_init cmBase pbInitShort).pb.probe_input = 5 ∧
    (probing_init cmBase pbInitShort).effects =
      [.error_message (-2), .queue_flush, .set_probing_mode 0 false,
       .spindle_resume, .canned_cycle_end, .set_probing_mode 5 true,
       .spindle_pause] ∧
    (probing_start envOpen (probing_init cmBase pbInitShort).cm
        (probing_init cmBase pbInitShort).pb).effects =
      [.straight_feed (probing_init cmBase pbInitShort).pb.target
        (probing_init cmBase pbInitShort).pb.flags] := by
  have h0 : axis_vector_length_sq zeroVec zeroVec = 0 := by
    simp [axis_vector_length_sq, zeroVec]
  have hlt : axis_vector_length_sq zeroVec zeroVec <
      MINIMUM_PROBE_TRAVEL ^ 2 := by
    rw [h0]
    norm_num [MINIMUM_PROBE_TRAVEL]
  have hA : ¬ (AXIS_A = AXIS_X) := by decide
  have hB : ¬ (AXIS_B = AXIS_X) := by decide
  have hC : ¬ (AXIS_C = AXIS_X) := by decide
  refine ⟨rfl, by decide, rfl, rfl, ?_, ?_⟩
  · simp [probing_init, cmBase, pbInitShort, hlt, abc_error_exits,
      probing_error_exit, probe_restore_settings, hA, hB, hC]
  · simp [probing_start, probing_init, cmBase, pbInitShort, envOpen,
      INPUT_INACTIVE, hlt, abc_error_exits, probing_error_exit,
      probe_restore_settings, hA, hB, hC]

/-- C6: when _probing_backoff finds the input triggered it marks success and
issues, in order, a queue flush and a corrective straight feed to exactly the
forward-kinematics image of the encoder snapshot using the probe's
participation flags; when it finds the input untriggered it marks failure and
issues no effect at all; both cases advance to finish. -/
theorem C6_backoff_contact_vs_no_contact (kf : Vec → Vec) (env : Env)
    (cm : CmState) (pb : PbState) :
    (env.read pb.probe_input ≠ INPUT_INACTIVE →
      (probing_backoff kf env cm pb).cm.probe_state = .PROBE_SUCCEEDED ∧
      (probing_backoff kf env cm pb).effects =
        [.queue_flush, .straight_feed (kf env.snapshot) pb.flags] ∧
      (probing_backoff kf env cm pb).pb.func = .PB_FINISH) ∧
    (env.read pb.probe_input = INPUT_INACTIVE →
      (probing_backoff kf env cm pb).cm.probe_state = .PROBE_FAILED ∧
      (probing_backoff kf env cm pb).effects = [] ∧
      (probing_backoff kf env cm pb).pb.func = .PB_FINISH) := by
  constructor
  · intro h
    simp [probing_backoff, h]
  · intro h
    simp [probing_backoff, h]

/-- Witness for C6: one concrete triggered invocation and one concrete
untriggered invocation. -/
theorem C6_witness :
    ((probing_backoff kfId envClosed cmBase pbStart).cm.probe_state =
        .PROBE_SUCCEEDED ∧
      (probing_backoff kfId envClosed cmBase pbStart).effects =
        [.queue_flush,
         .straight_feed (kfId envClosed.snapshot) pbStart.flags] ∧
      (probing_backoff kfId envClosed cmBase pbStart).pb.func =
        .PB_FINISH) ∧
    ((probing_backoff kfId envOpen cmBase pbStart).cm.probe_state =
        .PROBE_FAILED ∧
      (probing_backoff kfId envOpen cmBase pbStart).effects = [] ∧
      (probing_backoff kfId envOpen cmBase pbStart).pb.func =
        .PB_FINISH) := by
  refine ⟨(C6_backoff_contact_vs_no_contact kfId envClosed cmBase
      pbStart).1 (by decide),
    (C6_backoff_contact_vs_no_contact kfId envOpen cmBase pbStart).2 rfl⟩

/-- C9: _probing_init always sets the probe input to 5 and arms input 5 in
probing mode, for every machine state, target and flag configuration; and
with probe_input = 5 the start/backoff/finish reads depend only on the gpio
value at input 5 (and the encoder snapshot), while the restore path disarms
that same input 5. -/
theorem C9_probe_input_hardcoded_to_5 (kf : Vec → Vec) (env env2 : Env)
    (cm : CmState) (pb : PbState) (h5 : pb.probe_input = 5)
    (hread : env.read 5 = env2.read 5)
    (hsnap : env.snapshot = env2.snapshot) :
    ((probing_init cm pb).pb.probe_input = 5 ∧
      Effect.set_probing_mode 5 true ∈ (probing_init cm pb).effects) ∧
    (probing_start env cm pb = probing_start env2 cm pb ∧
      probing_backoff kf env cm pb = probing_backoff kf env2 cm pb ∧
      probing_finish env cm pb = probing_finish env2 cm pb) ∧
    Effect.set_probing_mode 5 false ∈ (probe_restore_settings cm pb).2 := by
  refine ⟨⟨?_, ?_⟩, ⟨?_, ?_, ?_⟩, ?_⟩
  · simp [probing_init]
  · simp [probing_init, List.mem_append, List.mem_cons]
  · simp [probing_start, h5, hread]
  · simp [probing_backoff, h5, hread, hsnap]
  · simp [probing_finish, h5, hread]
  · simp [probe_restore_settings, h5, List.mem_cons]

/-- C4: if the probe switch never triggers (every read during start, backoff
and finish is inactive), the cycle runs start, backoff, finish and
finalize_exit to completion: it ends with STAT_OK (not the probe-cycle-failed
status), the result is marked PROBE_FAILED, and the probe-result vector holds
the final position of the planned probe move — the target on every
participating axis. -/
theorem C4_no_trigger_completes_with_ok (kf : Vec → Vec) (cm : CmState)
    (pb : PbState) (e1 e2 e3 e4 : Env)
    (hfunc : pb.func = .PB_START) (hcyc : cm.cycle_state = .CYCLE_PROBE)
    (hb1 : e1.busy = false) (hb2 : e2.busy = false) (hb3 : e3.busy = false)
    (hb4 : e4.busy = false)
    (hr1 : e1.read pb.probe_input = INPUT_INACTIVE)
    (hr2 : e2.read pb.probe_input = INPUT_INACTIVE)
    (hr3 : e3.read pb.probe_input = INPUT_INACTIVE) :
    (probing_run kf [e1, e2, e3, e4] cm pb).status = .STAT_OK ∧
    (probing_run kf [e1, e2, e3, e4] cm pb).cm.probe_state =
      .PROBE_FAILED ∧
    (probing_run kf [e1, e2, e3, e4] cm pb).cm.probe_results =
      straight_feed_position cm.position pb.target pb.flags ∧
    ∀ a : Axis, pb.flags a = true →
      (probing_run kf [e1, e2, e3, e4] cm pb).cm.probe_results a =
        pb.target a := by
  simp [probing_run, cm_probing_cycle_callback, pb_dispatch, probing_start,
    probing_backoff, probing_finish, probing_finalize_exit,
    probe_restore_settings, straight_feed_position, hfunc, hcyc, hb1, hb2,
    hb3, hb4, hr1, hr2, hr3, INPUT_INACTIVE]
  intro a h1 h2
  rw [h1] at h2
  cases h2

/-- Witness for C4: a concrete 10mm X-axis probe whose switch never
triggers. -/
theorem C4_witness :
    (probing_run kfId [envOpen, envOpen, envOpen, envOpen] cmBase
        pbStart).status = .STAT_OK ∧
    (probing_run kfId [envOpen, envOpen, envOpen, envOpen] cmBase
        pbStart).cm.probe_state = .PROBE_FAILED ∧
    (probing_run kfId [envOpen, envOpen, envOpen, envOpen] cmBase
        pbStart).cm.probe_results =
      straight_feed_position cmBase.position pbStart.target pbStart.flags ∧
    ∀ a : Axis, pbStart.flags a = true →
      (probing_run kfId [envOpen, envOpen, envOpen, envOpen] cmBase
          pbStart).cm.probe_results a = pbStart.target a :=
  C4_no_trigger_completes_with_ok kfId cmBase pbStart envOpen envOpen envOpen
    envOpen rfl rfl rfl rfl rfl rfl rfl rfl rfl

/-- C5: if the probe switch is already triggered when the start state runs
(and is still triggered at finish), the cycle skips the probe move entirely:
it never issues a straight-feed effect, the position never changes, and it
completes with STAT_OK and a PROBE_SUCCEEDED result. -/
theorem C5_pretriggered_switch_skips_probe_move (kf : Vec → Vec)
    (cm : CmState) (pb : PbState) (e1 e2 e3 : Env)
    (hfunc : pb.func = .PB_START) (hcyc : cm.cycle_state = .CYCLE_PROBE)
    (hb1 : e1.busy = false) (hb2 : e2.busy = false) (hb3 : e3.busy = false)
    (hr1 : e1.read pb.probe_input = INPUT_ACTIVE)
    (hr2 : e2.read pb.probe_input = INPUT_ACTIVE) :
    (probing_run kf [e1, e2, e3] cm pb).status = .STAT_OK ∧
    (probing_run kf [e1, e2, e3] cm pb).cm.probe_state =
      .PROBE_SUCCEEDED ∧
    (probing_run kf [e1, e2, e3] cm pb).cm.position = cm.position ∧
    ∀ (t : Vec) (f : Flags),
      Effect.straight_feed t f ∉ (probing_run kf [e1, e2, e3] cm pb).effects
    := by
  simp [probing_run, cm_probing_cycle_callback, pb_dispatch, probing_start,
    probing_backoff, probing_finish, probing_finalize_exit,
    probe_restore_settings, hfunc, hcyc, hb1, hb2, hb3, hr1, hr2,
    INPUT_INACTIVE, INPUT_ACTIVE]

/-- Witness for C5: a concrete probe whose switch is closed from the
beginning. -/
theorem C5_witness :
    (probing_run kfId [envClosed, envClosed, envClosed] cmBase
        pbStart).status = .STAT_OK ∧
    (probing_run kfId [envClosed, envClosed, envClosed] cmBase
        pbStart).cm.probe_state = .PROBE_SUCCEEDED ∧
    (probing_run kfId [envClosed, envClosed, envClosed] cmBase
        pbStart).cm.position = cmBase.position ∧
    ∀ (t : Vec) (f : Flags),
      Effect.straight_feed t f ∉
        (probing_run kfId [envClosed, envClosed, envClosed] cmBase
          pbStart).effects :=
  C5_pretriggered_switch_skips_probe_move kfId cmBase pbStart envClosed
    envClosed envClosed rfl rfl rfl rfl rfl rfl rfl

/-- Witness for C9 at a concrete probing state and environment. -/
theorem C9_witness :
    ((probing_init cmBase pbStart).pb.probe_input = 5 ∧
      Effect.set_probing_mode 5 true ∈ (probing_init cmBase pbStart).effects) ∧
    (probing_start envOpen cmBase pbStart =
        probing_start envOpen cmBase pbStart ∧
      probing_backoff kfId envOpen cmBase pbStart =
        probing_backoff kfId envOpen cmBase pbStart ∧
      probing_finish envOpen cmBase pbStart =
        probing_finish envOpen cmBase pbStart) ∧
    Effect.set_probing_mode 5 false ∈
      (probe_restore_settings cmBase pbStart).2 :=
  C9_probe_input_hardcoded_to_5 kfId envOpen envOpen cmBase pbStart rfl rfl
    rfl

end G2
